import Mathlib

/-!
Verification development for `hpc_demo_setup.py`: a shallow embedding of the
idempotent reconciliation core (get-or-create, choice-set merge, custom-field
provisioning, cabling) and the trace-response normalizer, together with
theorems settling the frozen claims about them.

Decoded JSON data (and pynetbox record attributes, which mirror the decoded
JSON) are modelled by the inductive type `Val`.  Python truthiness, `dict.get`,
`x or y`, `str()`, `int()` and `len()` are modelled by `Val.truthy`, `dget` /
`dgetD`, `pyOr`, `pyStr`, `pyInt` and `pyLen`.  Code that can raise is modelled
in `Except String`, the error string naming the Python exception.
-/

/-- A decoded JSON value / pynetbox record attribute value. -/
inductive Val where
  | null : Val
  | str (s : String) : Val
  | int (n : Int) : Val
  | list (xs : List Val) : Val
  | dict (kvs : List (String × Val)) : Val

mutual
/-- Decidable equality on `Val` (the derive handler does not support this
nested inductive). -/
def Val.decEq : (a b : Val) → Decidable (a = b)
  | Val.null, Val.null => isTrue rfl
  | Val.str a, Val.str b =>
      match String.decEq a b with
      | isTrue h => isTrue (by rw [h])
      | isFalse h => isFalse (by intro he; cases he; exact h rfl)
  | Val.int a, Val.int b =>
      match Int.decEq a b with
      | isTrue h => isTrue (by rw [h])
      | isFalse h => isFalse (by intro he; cases he; exact h rfl)
  | Val.list xs, Val.list ys =>
      match Val.decEqList xs ys with
      | isTrue h => isTrue (by rw [h])
      | isFalse h => isFalse (by intro he; cases he; exact h rfl)
  | Val.dict xs, Val.dict ys =>
      match Val.decEqKVs xs ys with
      | isTrue h => isTrue (by rw [h])
      | isFalse h => isFalse (by intro he; cases he; exact h rfl)
  | Val.null, Val.str _ => isFalse (fun h => Val.noConfusion h)
  | Val.null, Val.int _ => isFalse (fun h => Val.noConfusion h)
  | Val.null, Val.list _ => isFalse (fun h => Val.noConfusion h)
  | Val.null, Val.dict _ => isFalse (fun h => Val.noConfusion h)
  | Val.str _, Val.null => isFalse (fun h => Val.noConfusion h)
  | Val.str _, Val.int _ => isFalse (fun h => Val.noConfusion h)
  | Val.str _, Val.list _ => isFalse (fun h => Val.noConfusion h)
  | Val.str _, Val.dict _ => isFalse (fun h => Val.noConfusion h)
  | Val.int _, Val.null => isFalse (fun h => Val.noConfusion h)
  | Val.int _, Val.str _ => isFalse (fun h => Val.noConfusion h)
  | Val.int _, Val.list _ => isFalse (fun h => Val.noConfusion h)
  | Val.int _, Val.dict _ => isFalse (fun h => Val.noConfusion h)
  | Val.list _, Val.null => isFalse (fun h => Val.noConfusion h)
  | Val.list _, Val.str _ => isFalse (fun h => Val.noConfusion h)
  | Val.list _, Val.int _ => isFalse (fun h => Val.noConfusion h)
  | Val.list _, Val.dict _ => isFalse (fun h => Val.noConfusion h)
  | Val.dict _, Val.null => isFalse (fun h => Val.noConfusion h)
  | Val.dict _, Val.str _ => isFalse (fun h => Val.noConfusion h)
  | Val.dict _, Val.int _ => isFalse (fun h => Val.noConfusion h)
  | Val.dict _, Val.list _ => isFalse (fun h => Val.noConfusion h)

/-- Decidable equality on lists of `Val`. -/
def Val.decEqList : (a b : List Val) → Decidable (a = b)
  | [], [] => isTrue rfl
  | [], _ :: _ => isFalse (fun h => List.noConfusion h)
  | _ :: _, [] => isFalse (fun h => List.noConfusion h)
  | x :: xs, y :: ys =>
      match Val.decEq x y with
      | isFalse h => isFalse (by intro he; injection he with h1 h2; exact h h1)
      | isTrue h1 =>
          match Val.decEqList xs ys with
          | isTrue h2 => isTrue (by rw [h1, h2])
          | isFalse h => isFalse (by intro he; injection he with ha hb; exact h hb)

/-- Decidable equality on dict entry lists. -/
def Val.decEqKVs : (a b : List (String × Val)) → Decidable (a = b)
  | [], [] => isTrue rfl
  | [], _ :: _ => isFalse (fun h => List.noConfusion h)
  | _ :: _, [] => isFalse (fun h => List.noConfusion h)
  | (k1, v1) :: xs, (k2, v2) :: ys =>
      match String.decEq k1 k2 with
      | isFalse h => isFalse (by intro he; injection he with h1 h2; injection h1 with ha hb; exact h ha)
      | isTrue hk =>
          match Val.decEq v1 v2 with
          | isFalse h => isFalse (by intro he; injection he with h1 h2; injection h1 with ha hb; exact h hb)
          | isTrue hv =>
              match Val.decEqKVs xs ys with
              | isTrue ht => isTrue (by rw [hk, hv, ht])
              | isFalse h => isFalse (by intro he; injection he with h1 h2; exact h h2)
end

instance : DecidableEq Val := Val.decEq

/-- Python truthiness (`bool(x)`): None, empty string, 0, empty list and
empty dict are falsy. -/
def Val.truthy : Val → Bool
  | Val.null => false
  | Val.str s => !s.isEmpty
  | Val.int n => decide (n ≠ 0)
  | Val.list xs => !xs.isEmpty
  | Val.dict kvs => !kvs.isEmpty

/-- Python `d.get(k)`: the value under `k`, defaulting to `None`. -/
def dget (kvs : List (String × Val)) (k : String) : Val :=
  match List.lookup k kvs with
  | some v => v
  | none => Val.null

/-- Python `d.get(k, default)`. -/
def dgetD (kvs : List (String × Val)) (k : String) (d : Val) : Val :=
  match List.lookup k kvs with
  | some v => v
  | none => d

/-- Python `a or b`: `a` if truthy, else `b`. -/
def pyOr (a b : Val) : Val := if a.truthy then a else b

mutual
/-- Python `repr(v)` for decoded JSON values (also standing in for the
`pprint` rendering in the raw-dump fallback, whose line wrapping is
abstracted away). -/
def pyRepr : Val → String
  | Val.null => "None"
  | Val.str s => "\x27" ++ s ++ "\x27"
  | Val.int n => toString n
  | Val.list xs => "[" ++ pyReprList xs ++ "]"
  | Val.dict kvs => "\x7b" ++ pyReprKVs kvs ++ "\x7d"

/-- Comma-separated reprs of a list of values. -/
def pyReprList : List Val → String
  | [] => ""
  | [x] => pyRepr x
  | x :: y :: xs => pyRepr x ++ ", " ++ pyReprList (y :: xs)

/-- Comma-separated reprs of dict entries. -/
def pyReprKVs : List (String × Val) → String
  | [] => ""
  | [(k, v)] => "\x27" ++ k ++ "\x27: " ++ pyRepr v
  | (k, v) :: kv :: kvs => "\x27" ++ k ++ "\x27: " ++ pyRepr v ++ ", " ++ pyReprKVs (kv :: kvs)
end

/-- Python `str(v)`: a string renders as itself, everything else as its repr. -/
def pyStr : Val → String
  | Val.str s => s
  | v => pyRepr v

/-- Python `int(v)`: identity on ints, parse for strings, `TypeError`
otherwise (in particular on `None`). -/
def pyInt : Val → Except String Int
  | Val.int n => Except.ok n
  | Val.str s =>
      match s.toInt? with
      | some n => Except.ok n
      | none => Except.error "ValueError: invalid literal for int"
  | _ => Except.error "TypeError: int argument"

/-- Python `len(v)`: lists, dicts and strings are sized; anything else
raises `TypeError`. -/
def pyLen : Val → Except String Nat
  | Val.list xs => Except.ok xs.length
  | Val.dict kvs => Except.ok kvs.length
  | Val.str s => Except.ok s.length
  | _ => Except.error "TypeError: object has no len"

/-- Whether a value is a Python list (`isinstance(v, list)`). -/
def Val.isList : Val → Bool
  | Val.list _ => true
  | _ => false

/-!
## ResourceReconciler: `get_or_create` (src/hpc_demo_setup.py lines 37-47)

A collection endpoint is modelled as a list of resources plus a counter for
fresh identities.  `endpoint.get(**key)` filters by one attribute (pynetbox
returns the unique match, `None` when there is none, and raises `ValueError`
on more than one); `endpoint.create(attrs)` appends a resource holding the
given attributes under a fresh identity.  The `Nat` in the result counts
create calls issued by the invocation.
-/

/-- A remote resource: opaque identity plus attribute mapping. -/
structure Resource where
  rid : Nat
  rattrs : List (String × Val)
deriving DecidableEq

/-- A collection endpoint: the next fresh identity and the stored resources. -/
structure Endpoint where
  next_id : Nat
  objects : List Resource
deriving DecidableEq

/-- The key-pick loop of `get_or_create`: the first of `name`, `slug` that is
present in `attrs` with a truthy value. -/
def keyOf (attrs : List (String × Val)) : Option (String × Val) :=
  match List.lookup "name" attrs with
  | some v =>
      if v.truthy then some ("name", v)
      else
        match List.lookup "slug" attrs with
        | some w => if w.truthy then some ("slug", w) else none
        | none => none
  | none =>
      match List.lookup "slug" attrs with
      | some w => if w.truthy then some ("slug", w) else none
      | none => none

/-- Whether a stored resource matches the filter `k=v`. -/
def matchesKey (k : String) (v : Val) (r : Resource) : Bool :=
  decide (List.lookup k r.rattrs = some v)

/-- pynetbox `endpoint.get(k=v)`: `None` on no match, the resource on a
unique match, `ValueError` on several. -/
def epGet (ep : Endpoint) (k : String) (v : Val) : Except String (Option Resource) :=
  match ep.objects.filter (matchesKey k v) with
  | [] => Except.ok none
  | [r] => Except.ok (some r)
  | _ :: _ :: _ => Except.error "ValueError: get returned more than one result"

/-- `get_or_create(endpoint, **attrs)`: look up by the first truthy of
`name`/`slug`; return the existing resource unmodified, else create.  Returns
the resource, the resulting endpoint state and the number of create calls.
A missing key means `endpoint.get()` with no filter, which raises. -/
def get_or_create (ep : Endpoint) (attrs : List (String × Val)) :
    Except String (Resource × Endpoint × Nat) :=
  match keyOf attrs with
  | none => Except.error "ValueError: filter must be passed kwargs"
  | some (k, v) =>
      match epGet ep k v with
      | Except.error e => Except.error e
      | Except.ok (some r) => Except.ok (r, ep, 0)
      | Except.ok none =>
          let newr : Resource := { rid := ep.next_id, rattrs := attrs }
          Except.ok (newr, { next_id := ep.next_id + 1, objects := ep.objects ++ [newr] }, 1)

/-!
## ChoiceSetMerger: `ensure_choice_set` (src/hpc_demo_setup.py lines 78-153)

The merge decision of both transport paths, given the existing set (as the
server reports it: the rendered `choices` field and the stored
`extra_choices` field) and the desired values.  `MergeAction` records the
write the path issues: a create with an initial extra partition, a no-op, or
a patch of the extra partition only.
-/

/-- The server-held state of an existing choice set, as consumed by the merge:
its rendered `choices` field and its stored `extra_choices` field. -/
structure CSState where
  choices : Val
  extra_choices : Val
deriving DecidableEq

/-- `_vals_from_choices` body: collect first elements of pair-sequences and
`value` entries of records (a Python set, modelled as a list whose membership
is what the merge consults). -/
def vals_from_choices_list (cs : List Val) : List Val :=
  cs.foldl (fun vals c =>
    match c with
    | Val.list (x :: _) => vals ++ [x]
    | Val.dict d => vals ++ [dget d "value"]
    | _ => vals) []

/-- `_vals_from_choices(choices)`: iterate `choices or []`.  (Iterating a
truthy non-sequence would raise `TypeError` in Python; decoded `choices`
fields are always a sequence or null, so that branch is collapsed to the
empty result here.) -/
def _vals_from_choices (choices : Val) : List Val :=
  match pyOr choices (Val.list []) with
  | Val.list cs => vals_from_choices_list cs
  | _ => []

/-- Normalisation of the stored extra partition on the structured-client
path (lines 107-113): pair-sequences pass through (`list(c)`), records become
`[value, label defaulting to value]`, anything else is skipped. -/
def norm_extra_structured (current_extra : Val) : List Val :=
  match pyOr current_extra (Val.list []) with
  | Val.list cur =>
      cur.foldl (fun ne c =>
        match c with
        | Val.list l => ne ++ [Val.list l]
        | Val.dict d => ne ++ [Val.list [dget d "value", dgetD d "label" (dget d "value")]]
        | _ => ne) []
  | _ => []

/-- Normalisation of the stored extra partition on the raw-HTTP fallback
path (lines 139-145): identical shape (the structured path additionally
accepts tuples, which do not occur in decoded data). -/
def norm_extra_raw (current_extra : Val) : List Val :=
  match pyOr current_extra (Val.list []) with
  | Val.list cur =>
      cur.foldl (fun ne c =>
        match c with
        | Val.list l => ne ++ [Val.list l]
        | Val.dict d => ne ++ [Val.list [dget d "value", dgetD d "label" (dget d "value")]]
        | _ => ne) []
  | _ => []

/-- The write a merge path issues. -/
inductive MergeAction where
  | create (extra_choices : List Val) : MergeAction
  | noop : MergeAction
  | patch (extra_choices : List Val) : MergeAction
deriving DecidableEq

/-- The `[v, v]` pair a desired value is rendered as. -/
def pairOf (v : String) : Val := Val.list [Val.str v, Val.str v]

/-- Structured-client path of `ensure_choice_set` (lines 98-123): on an
existing set, compute the missing values against `_vals_from_choices` of the
`choices` field, return it unchanged when none are missing, else patch only
`extra_choices` to the normalised existing extras followed by `[v, v]` for
each missing value in request order; on an absent set, create with
`extra_choices = [[v, v] for v in values]`. -/
def ensure_choice_set_structured (cs : Option CSState) (values : List String) : MergeAction :=
  match cs with
  | some cs =>
      let existing_vals := _vals_from_choices cs.choices
      let missing := values.filter (fun v => decide (Val.str v ∉ existing_vals))
      if missing = [] then MergeAction.noop
      else MergeAction.patch (norm_extra_structured cs.extra_choices ++ missing.map pairOf)
  | none => MergeAction.create (values.map pairOf)

/-- Raw-HTTP fallback path of `ensure_choice_set` (lines 126-153): the same
decision computed from the decoded lookup response. -/
def ensure_choice_set_raw (cs : Option CSState) (values : List String) : MergeAction :=
  match cs with
  | some cs =>
      let existing_vals := _vals_from_choices cs.choices
      let missing := values.filter (fun v => decide (Val.str v ∉ existing_vals))
      if missing = [] then MergeAction.noop
      else MergeAction.patch (norm_extra_raw cs.extra_choices ++ missing.map pairOf)
  | none => MergeAction.create (values.map pairOf)

/-!
## CustomFieldProvisioner: `ensure_cf_select` (src/hpc_demo_setup.py lines 168-186)

Only the binding decision on the already-existing-field path is modelled: the
choice-set identity the field currently references is extracted exactly as in
the source, and `CFAction` records the write issued.
-/

/-- An existing select custom field: its identity and its `choice_set`
attribute as the client reports it (a record, modelled as a dict carrying an
`id`, or null). -/
structure CFRec where
  cfid : Nat
  choice_set : Val
deriving DecidableEq

/-- Lines 182-183: `current_cs.get("id")` when the attribute is a record,
else `getattr(current_cs, "id", None)` (which is `None` for null and for any
other non-record value). -/
def current_cs_id (cf : CFRec) : Val :=
  match cf.choice_set with
  | Val.dict d => dget d "id"
  | _ => Val.null

/-- The write `ensure_cf_select` issues for the field itself. -/
inductive CFAction where
  | created : CFAction
  | updated (cfid : Nat) (new_choice_set : Nat) : CFAction
  | unchanged : CFAction
deriving DecidableEq

/-- `ensure_cf_select` after the backing choice set resolved to identity
`cs_id` (lines 174-186): create the field when absent; when present and bound
to a different choice-set identity, repoint it via one update (the payload
carries `choice_set = cs_id`); otherwise return it unchanged. -/
def ensure_cf_select (cf : Option CFRec) (cs_id : Nat) : CFAction :=
  match cf with
  | none => CFAction.created
  | some cf =>
      if current_cs_id cf ≠ Val.int cs_id then CFAction.updated cf.cfid cs_id
      else CFAction.unchanged

/-- Number of update calls a `CFAction` performs. -/
def cf_update_calls : CFAction → Nat
  | CFAction.updated _ _ => 1
  | _ => 0

/-!
## TopologyBuilder: `_normalize_iface_type` (src/hpc_demo_setup.py lines 242-253)

Hints are modelled as lists of characters; `"needle" in s` is the substring
test `subMatch`.
-/

/-- Whether `needle` occurs at the head of `hay`. -/
def leadMatch : List Char → List Char → Bool
  | [], _ => true
  | _ :: _, [] => false
  | a :: as, b :: bs => a == b && leadMatch as bs

/-- Python `needle in hay` for strings: `needle` occurs contiguously in
`hay`. -/
def subMatch (needle : List Char) : List Char → Bool
  | [] => needle.isEmpty
  | b :: bs => leadMatch needle (b :: bs) || subMatch needle bs

/-- `_normalize_iface_type(hint)`: `other` on a falsy hint, else the first
matching substring rule on the lowercased hint, in source order. -/
def _normalize_iface_type (hint : List Char) : String :=
  if hint.isEmpty then "other"
  else
    let s := hint.map Char.toLower
    if subMatch ("100g".toList) s then "100gbase-x-qsfp28"
    else if subMatch ("25g".toList) s then "25gbase-x-sfp28"
    else if subMatch ("40g".toList) s then "40gbase-x-qsfpp"
    else if subMatch ("10g".toList) s then "10gbase-x-sfpp"
    else if subMatch ("1g".toList) s || subMatch ("1000".toList) s then "1000base-t"
    else if subMatch ("lag".toList) s || subMatch ("bond".toList) s || subMatch ("port-channel".toList) s then "lag"
    else "other"

/-- Modelled from the spec: the ordered rule table of section 4.4, each rule a
set of alternative substrings and the resulting type slug. -/
def ifaceRules : List (List (List Char) × String) :=
  [(["100g".toList], "100gbase-x-qsfp28"),
   (["25g".toList], "25gbase-x-sfp28"),
   (["40g".toList], "40gbase-x-qsfpp"),
   (["10g".toList], "10gbase-x-sfpp"),
   (["1g".toList, "1000".toList], "1000base-t"),
   (["lag".toList, "bond".toList, "port-channel".toList], "lag")]

/-- First rule whose alternatives match, else `other`. -/
def firstRule (s : List Char) : List (List (List Char) × String) → String
  | [] => "other"
  | (pats, res) :: rest => if pats.any (fun p => subMatch p s) then res else firstRule s rest

/-- Modelled from the spec: interface-type inference as first-matching-rule
lookup in the fixed-order table, on the lowercased hint. -/
def ifaceTypeSpec (hint : List Char) : String :=
  if hint.isEmpty then "other" else firstRule (hint.map Char.toLower) ifaceRules

/-!
## CablingEngine: `_has_cable`, `cable_ifaces`, `cable_power`
(src/hpc_demo_setup.py lines 297-317)
-/

/-- A termination object as seen by `_has_cable`: the result of reading its
`cable` attribute — `none` models the read raising, `some v` the attribute
value (null when absent). -/
structure TermObj where
  cableRead : Option Val
deriving DecidableEq

/-- `_has_cable`: `bool(getattr(obj, "cable", None))`, any exception giving
`False`. -/
def _has_cable (t : TermObj) : Bool :=
  match t.cableRead with
  | some v => v.truthy
  | none => false

/-- A termination passed to the cabling helpers: its attribute object and its
remote identity. -/
structure Termination where
  tobj : TermObj
  tid : Nat
deriving DecidableEq

/-- The payload of one cable create call. -/
structure CableCreate where
  a_type : String
  a_id : Nat
  b_type : String
  b_id : Nat
deriving DecidableEq

/-- `cable_ifaces(a, b)`: the cable create calls issued — none when either
termination already reports a cable, else exactly one interface-to-interface
cable. -/
def cable_ifaces (a b : Termination) : List CableCreate :=
  if _has_cable a.tobj || _has_cable b.tobj then []
  else [{ a_type := "dcim.interface", a_id := a.tid,
          b_type := "dcim.interface", b_id := b.tid }]

/-- `cable_power(power_port, power_outlet)`: the same check specialised to
power terminations. -/
def cable_power (pp po : Termination) : List CableCreate :=
  if _has_cable pp.tobj || _has_cable po.tobj then []
  else [{ a_type := "dcim.powerport", a_id := pp.tid,
          b_type := "dcim.poweroutlet", b_id := po.tid }]

/-!
## Metrics: rack power roll-up and port utilization
(src/hpc_demo_setup.py lines 340-352)
-/

/-- A device as the roll-up loop sees it: its `custom_fields` attribute. -/
structure DeviceRec where
  custom_fields : Val
deriving DecidableEq

/-- One iteration body of the roll-up loop (lines 343-344):
`int((getattr(d, "custom_fields", {}) or {}).get("estimated_watts") or 0)`.
`.get` on a truthy non-dict raises. -/
def device_watts (d : DeviceRec) : Except String Int :=
  match pyOr d.custom_fields (Val.dict []) with
  | Val.dict cf => pyInt (pyOr (dget cf "estimated_watts") (Val.int 0))
  | _ => Except.error "AttributeError: get"

/-- The roll-up accumulation loop (lines 341-344). -/
def rack_watts_loop (acc : Int) : List DeviceRec → Except String Int
  | [] => Except.ok acc
  | d :: ds =>
      match device_watts d with
      | Except.error e => Except.error e
      | Except.ok w => rack_watts_loop (acc + w) ds

/-- `rack_watts` over the devices placed in the rack. -/
def rack_watts (devs : List DeviceRec) : Except String Int :=
  rack_watts_loop 0 devs

/-- The per-device wattages, first failure propagated (sequencing helper for
stating the roll-up as a sum). -/
def device_watts_all : List DeviceRec → Except String (List Int)
  | [] => Except.ok []
  | d :: ds =>
      match device_watts d with
      | Except.error e => Except.error e
      | Except.ok w =>
          match device_watts_all ds with
          | Except.error e => Except.error e
          | Except.ok ws => Except.ok (w :: ws)

/-- An interface as the utilization computation sees it: its `cable`
attribute (`getattr(i, "cable", None)`, null when absent). -/
structure IfaceRec where
  cable : Val
deriving DecidableEq

/-- `used_ports`: interfaces whose cable attribute is truthy (line 350). -/
def used_count (ifaces : List IfaceRec) : Nat :=
  (ifaces.filter (fun i => i.cable.truthy)).length

/-- Python `round(x)` for a nonnegative-denominator rational: round half to
even (the roll of `round` on CPython; the float representation of the exact
quotient is abstracted to the quotient itself). -/
def roundHalfEven (x : ℚ) : ℤ :=
  let f := ⌊x⌋
  let frac := x - (f : ℚ)
  if frac < 1 / 2 then f
  else if 1 / 2 < frac then f + 1
  else if f % 2 = 0 then f else f + 1

/-- Python `round(x, 1)`. -/
def pyRound1 (x : ℚ) : ℚ := (roundHalfEven (10 * x) : ℚ) / 10

/-- Lines 349-351: `util = round(100 * used_ports / total_ports, 1) if
total_ports else 0.0`. -/
def util (ifaces : List IfaceRec) : ℚ :=
  let total_ports := ifaces.length
  let used_ports := used_count ifaces
  if total_ports ≠ 0 then pyRound1 (100 * (used_ports : ℚ) / (total_ports : ℚ)) else 0

/-!
## TraceNormalizer: `_term_to_str`, `print_interface_trace_raw`
(src/hpc_demo_setup.py lines 358-413)

The printed lines after the title are collected into a list; an uncaught
Python exception is an `Except.error` naming it (printing is all-or-nothing
here, which is enough for the claims, all of which concern non-raising
runs).  The raw-dump fallback wraps `pprint` in try/except and therefore
never raises.
-/

/-- `_term_to_str(term)`: `-` for a falsy terminus; for a record, render
`type:name@device` (the `@device` part only when a device name resolves),
with the object-type defaulting to `term`; `str(term)` otherwise.  Reading
`device` as a truthy non-record raises `AttributeError` at `dev.get`. -/
def _term_to_str (term : Val) : Except String String :=
  if term.truthy = false then Except.ok "-"
  else
    match term with
    | Val.dict d =>
        match pyOr (dget d "device") (Val.dict []) with
        | Val.dict dd =>
            let devname := pyOr (dget dd "name") (pyOr (dget dd "display") (Val.str ""))
            let objtype := pyOr (dget d "obj_type") (pyOr (dget d "type")
              (pyOr (dget d "object_type") (Val.str "term")))
            let name := pyOr (dget d "name") (pyOr (dget d "display") (Val.str ""))
            if devname.truthy then
              Except.ok (pyStr objtype ++ ":" ++ pyStr name ++ "@" ++ pyStr devname)
            else
              Except.ok (pyStr objtype ++ ":" ++ pyStr name)
        | _ => Except.error "AttributeError: get"
    | other => Except.ok (pyStr other)

/-- Python tuple unpacking `left, cable, right = hop` for a 3-sized value:
a 3-list unpacks to its elements, a 3-key dict to its keys, a 3-character
string to its characters. -/
def unpack3 : Val → Except String (Val × Val × Val)
  | Val.list [a, b, c] => Except.ok (a, b, c)
  | Val.dict [ka, kb, kc] => Except.ok (Val.str ka.1, Val.str kb.1, Val.str kc.1)
  | Val.str s =>
      match s.toList with
      | [a, b, c] => Except.ok (Val.str a.toString, Val.str b.toString, Val.str c.toString)
      | _ => Except.error "ValueError: unpack"
  | _ => Except.error "ValueError: unpack"

/-- One Case-A hop (lines 379-385): a 3-element hop renders
`left  --[label]-->  right` with the label taken from the cable record (the
literal `cable` when the cable slot is not a record); anything else renders
as a lone terminus line. -/
def caseA_hop (hop : Val) : Except String String :=
  match pyLen hop with
  | Except.error e => Except.error e
  | Except.ok n =>
      if n = 3 then
        match unpack3 hop with
        | Except.error e => Except.error e
        | Except.ok (left, cable, right) =>
            let label := match cable with
              | Val.dict cd => pyStr (dget cd "label")
              | _ => "cable"
            match _term_to_str left, _term_to_str right with
            | Except.ok l, Except.ok r =>
                Except.ok ("   " ++ l ++ "  --[" ++ label ++ "]-->  " ++ r)
            | Except.error e, _ => Except.error e
            | _, Except.error e => Except.error e
      else
        match _term_to_str hop with
        | Except.ok s2 => Except.ok ("   " ++ s2)
        | Except.error e => Except.error e

/-- Case-A loop. -/
def caseA_lines : List Val → Except String (List String)
  | [] => Except.ok []
  | hop :: rest =>
      match caseA_hop hop with
      | Except.error e => Except.error e
      | Except.ok line =>
          match caseA_lines rest with
          | Except.error e => Except.error e
          | Except.ok ls => Except.ok (line :: ls)

/-- One Case-B segment (lines 389-398): termination fields under
`termination_a`/`a`/`from` and `termination_b`/`b`/`to`, label from the
cable field; a segment that is not a record raises at `seg.get`, as does a
truthy non-record cable field at `cable.get`. -/
def caseB_seg (seg : Val) : Except String String :=
  match seg with
  | Val.dict d =>
      let left := pyOr (dget d "termination_a") (pyOr (dget d "a") (dget d "from"))
      let right := pyOr (dget d "termination_b") (pyOr (dget d "b") (dget d "to"))
      match pyOr (dget d "cable") (Val.dict []) with
      | Val.dict cd =>
          let label := pyStr (pyOr (dget cd "label") (pyOr (dget cd "display") (Val.str "cable")))
          if left.truthy || right.truthy then
            match _term_to_str left, _term_to_str right with
            | Except.ok l, Except.ok r =>
                Except.ok ("   " ++ l ++ "  --[" ++ label ++ "]-->  " ++ r)
            | Except.error e, _ => Except.error e
            | _, Except.error e => Except.error e
          else
            match _term_to_str seg with
            | Except.ok s2 => Except.ok ("   " ++ s2)
            | Except.error e => Except.error e
      | _ => Except.error "AttributeError: get"
  | _ => Except.error "AttributeError: get"

/-- Case-B loop. -/
def caseB_lines : List Val → Except String (List String)
  | [] => Except.ok []
  | seg :: rest =>
      match caseB_seg seg with
      | Except.error e => Except.error e
      | Except.ok line =>
          match caseB_lines rest with
          | Except.error e => Except.error e
          | Except.ok ls => Except.ok (line :: ls)

/-- Case-C loop (lines 402-404): each item rendered individually. -/
def caseC_lines : List Val → Except String (List String)
  | [] => Except.ok []
  | item :: rest =>
      match _term_to_str item with
      | Except.error e => Except.error e
      | Except.ok s2 =>
          match caseC_lines rest with
          | Except.error e => Except.error e
          | Except.ok ls => Except.ok (("   " ++ s2) :: ls)

/-- `print_interface_trace_raw` on the decoded body `tr` (lines 376-413),
as the list of lines printed after the title: a nonempty list dispatches on
its first element (list → Case A, dict → Case B, else Case C), any other
list takes Case C, and a non-list body takes the raw-dump fallback. -/
def trace_lines (tr : Val) : Except String (List String) :=
  match tr with
  | Val.list (first :: rest) =>
      match first with
      | Val.list _ => caseA_lines (first :: rest)
      | Val.dict _ => caseB_lines (first :: rest)
      | _ => caseC_lines (first :: rest)
  | Val.list [] => caseC_lines []
  | _ => Except.ok ["   [raw trace]", pyRepr tr]

/-- The custom-field maps of the seven demo devices placed in the rack
(lines 233-239), carrying estimated wattages 180, 220, 20, 800, 800, 250
and 350. -/
def demoRackDevices : List DeviceRec :=
  [{ custom_fields := Val.dict [("cluster_name", Val.str "atlas"), ("hpc_role", Val.str "switch"), ("estimated_watts", Val.int 180)] },
   { custom_fields := Val.dict [("cluster_name", Val.str "atlas"), ("hpc_role", Val.str "switch"), ("estimated_watts", Val.int 220)] },
   { custom_fields := Val.dict [("cluster_name", Val.str "atlas"), ("hpc_role", Val.str "pdu"), ("estimated_watts", Val.int 20)] },
   { custom_fields := Val.dict [("cluster_name", Val.str "atlas"), ("hpc_role", Val.str "gpu"), ("estimated_watts", Val.int 800)] },
   { custom_fields := Val.dict [("cluster_name", Val.str "atlas"), ("hpc_role", Val.str "gpu"), ("estimated_watts", Val.int 800)] },
   { custom_fields := Val.dict [("cluster_name", Val.str "atlas"), ("hpc_role", Val.str "cpu"), ("estimated_watts", Val.int 250)] },
   { custom_fields := Val.dict [("cluster_name", Val.str "atlas"), ("hpc_role", Val.str "storage"), ("estimated_watts", Val.int 350)] }]

/-!
## Theorems
-/

/-- The roll-up loop accumulates exactly the sum of the per-device wattages
(first failure propagated). -/
theorem rack_watts_loop_eq (devs : List DeviceRec) : ∀ acc : Int,
    rack_watts_loop acc devs = (device_watts_all devs).map (fun ws => acc + ws.sum) := by
  induction devs with
  | nil => intro acc; simp [rack_watts_loop, device_watts_all, Except.map]
  | cons d ds ih =>
      intro acc
      cases hd : device_watts d with
      | error e => simp [rack_watts_loop, device_watts_all, hd, Except.map]
      | ok w =>
          have hih := ih (acc + w)
          cases hds : device_watts_all ds with
          | error e =>
              rw [hds] at hih
              simp [rack_watts_loop, device_watts_all, hd, hds, Except.map, hih]
          | ok ws =>
              rw [hds] at hih
              simp only [rack_watts_loop, device_watts_all, hd, hds, Except.map, hih]
              simp [List.sum_cons]
              omega

/-- C3 counterexample: on the empty sequence the normalizer does not emit a
raw diagnostic dump — it takes the flat-list branch and prints nothing. -/
theorem C3_empty_no_dump :
    trace_lines (Val.list []) = Except.ok [] ∧
    "   [raw trace]" ∉ ([] : List String) := by
  exact ⟨rfl, by simp⟩

/-- C3 (amended): only a decoded body that is not a sequence takes the raw
diagnostic dump, and the dump path never raises; an empty sequence is handled
by the flat-list branch, emitting no hop lines and not raising. -/
theorem C3_raw_dump_fallback (tr : Val) :
    (tr.isList = false → trace_lines tr = Except.ok ["   [raw trace]", pyRepr tr]) ∧
    trace_lines (Val.list []) = Except.ok [] := by
  constructor
  · intro h
    cases tr with
    | null => rfl
    | str s => rfl
    | int n => rfl
    | list xs => simp [Val.isList] at h
    | dict kvs => rfl
  · rfl

/-- C3 witness. -/
theorem C3_raw_dump_fallback_witness :
    trace_lines Val.null = Except.ok ["   [raw trace]", "None"] ∧
    trace_lines (Val.list []) = Except.ok [] :=
  ⟨(C3_raw_dump_fallback Val.null).1 rfl, (C3_raw_dump_fallback Val.null).2⟩

/-- C9: for an existing select custom field, `ensure_cf_select` repoints the
binding via exactly one update call when the field's current choice-set
identity differs from the resolved one, and returns the field unchanged with
no update when it already matches. -/
theorem C9_cf_select_binding (cf : CFRec) (cs_id : Nat) :
    (current_cs_id cf ≠ Val.int cs_id →
        ensure_cf_select (some cf) cs_id = CFAction.updated cf.cfid cs_id ∧
        cf_update_calls (ensure_cf_select (some cf) cs_id) = 1) ∧
    (current_cs_id cf = Val.int cs_id →
        ensure_cf_select (some cf) cs_id = CFAction.unchanged ∧
        cf_update_calls (ensure_cf_select (some cf) cs_id) = 0) := by
  constructor
  · intro h
    simp [ensure_cf_select, h, cf_update_calls]
  · intro h
    simp [ensure_cf_select, h, cf_update_calls]

/-- C9 witness. -/
theorem C9_cf_select_binding_witness :
    (ensure_cf_select (some { cfid := 7, choice_set := Val.dict [("id", Val.int 3)] }) 4 =
        CFAction.updated 7 4 ∧
      cf_update_calls (ensure_cf_select (some { cfid := 7, choice_set := Val.dict [("id", Val.int 3)] }) 4) = 1) ∧
    (ensure_cf_select (some { cfid := 7, choice_set := Val.dict [("id", Val.int 4)] }) 4 =
        CFAction.unchanged ∧
      cf_update_calls (ensure_cf_select (some { cfid := 7, choice_set := Val.dict [("id", Val.int 4)] }) 4) = 0) :=
  ⟨(C9_cf_select_binding { cfid := 7, choice_set := Val.dict [("id", Val.int 3)] } 4).1
      (by simp [current_cs_id, dget]),
   (C9_cf_select_binding { cfid := 7, choice_set := Val.dict [("id", Val.int 4)] } 4).2
      (by simp [current_cs_id, dget, List.lookup])⟩

/-- C6: `cable_ifaces` and `cable_power` are no-ops (no cable created, no
error) when either termination already reports a cable, and a failed read of
the cable attribute is treated exactly as an absent cable. -/
theorem C6_cabling_noop (a b : Termination) :
    (_has_cable a.tobj = true ∨ _has_cable b.tobj = true →
        cable_ifaces a b = [] ∧ cable_power a b = []) ∧
    (∀ ta : TermObj, ta.cableRead = none →
        cable_ifaces { tobj := ta, tid := a.tid } b =
          cable_ifaces { tobj := { cableRead := some Val.null }, tid := a.tid } b ∧
        cable_power { tobj := ta, tid := a.tid } b =
          cable_power { tobj := { cableRead := some Val.null }, tid := a.tid } b) := by
  constructor
  · intro h
    cases h with
    | inl h => exact ⟨by simp [cable_ifaces, h], by simp [cable_power, h]⟩
    | inr h => exact ⟨by simp [cable_ifaces, h], by simp [cable_power, h]⟩
  · intro ta hta
    constructor
    · simp [cable_ifaces, _has_cable, hta, Val.truthy]
    · simp [cable_power, _has_cable, hta, Val.truthy]

/-- C6 witness. -/
theorem C6_cabling_noop_witness :
    (cable_ifaces { tobj := { cableRead := some (Val.int 9) }, tid := 1 }
        { tobj := { cableRead := some Val.null }, tid := 2 } = [] ∧
      cable_power { tobj := { cableRead := some (Val.int 9) }, tid := 1 }
        { tobj := { cableRead := some Val.null }, tid := 2 } = []) ∧
    cable_ifaces { tobj := { cableRead := none }, tid := 1 }
        { tobj := { cableRead := some Val.null }, tid := 2 } =
      cable_ifaces { tobj := { cableRead := some Val.null }, tid := 1 }
        { tobj := { cableRead := some Val.null }, tid := 2 } :=
  ⟨(C6_cabling_noop { tobj := { cableRead := some (Val.int 9) }, tid := 1 }
      { tobj := { cableRead := some Val.null }, tid := 2 }).1 (Or.inl (by simp [_has_cable, Val.truthy])),
   ((C6_cabling_noop { tobj := { cableRead := some (Val.int 9) }, tid := 1 }
      { tobj := { cableRead := some Val.null }, tid := 2 }).2 { cableRead := none } rfl).1⟩

/-- C5: interface-type inference is exactly first-matching-rule lookup in the
fixed-order table 100g, 25g, 40g, 10g, 1g/1000, lag/bond/port-channel, else
other; every hint containing `100g` resolves to the 100G type (never the 10G
type), and a hint matching lag/bond/port-channel with no earlier speed match
resolves to the link-aggregation-group type. -/
theorem C5_iface_type_order :
    (∀ hint : List Char, _normalize_iface_type hint = ifaceTypeSpec hint) ∧
    (∀ hint : List Char, hint.isEmpty = false →
        subMatch ("100g".toList) (hint.map Char.toLower) = true →
        _normalize_iface_type hint = "100gbase-x-qsfp28" ∧
        _normalize_iface_type hint ≠ "10gbase-x-sfpp") ∧
    (∀ hint : List Char, hint.isEmpty = false →
        subMatch ("100g".toList) (hint.map Char.toLower) = false →
        subMatch ("25g".toList) (hint.map Char.toLower) = false →
        subMatch ("40g".toList) (hint.map Char.toLower) = false →
        subMatch ("10g".toList) (hint.map Char.toLower) = false →
        subMatch ("1g".toList) (hint.map Char.toLower) = false →
        subMatch ("1000".toList) (hint.map Char.toLower) = false →
        (subMatch ("lag".toList) (hint.map Char.toLower) ||
           subMatch ("bond".toList) (hint.map Char.toLower) ||
           subMatch ("port-channel".toList) (hint.map Char.toLower)) = true →
        _normalize_iface_type hint = "lag") := by
  refine ⟨?_, ?_, ?_⟩
  · intro hint
    unfold _normalize_iface_type ifaceTypeSpec ifaceRules
    simp only [firstRule, List.any_cons, List.any_nil, Bool.or_false, Bool.or_assoc]
  · intro hint hne h100
    rw [_normalize_iface_type, if_neg (by simp [hne]), if_pos h100]
    exact ⟨rfl, by decide⟩
  · intro hint hne h100 h25 h40 h10 h1g h1000 hlag
    unfold _normalize_iface_type
    rw [if_neg (by simp [hne])]
    simp only [h100, h25, h40, h10, h1g, h1000, hlag]
    simp

/-- C5 witness. -/
theorem C5_iface_type_order_witness :
    _normalize_iface_type ("100g-uplink".toList) = "100gbase-x-qsfp28" ∧
    _normalize_iface_type ("100g-uplink".toList) ≠ "10gbase-x-sfpp" ∧
    _normalize_iface_type ("bond0".toList) = "lag" := by
  refine ⟨?_, ?_, ?_⟩
  · exact (C5_iface_type_order.2.1 ("100g-uplink".toList) (by decide) (by decide)).1
  · exact (C5_iface_type_order.2.1 ("100g-uplink".toList) (by decide) (by decide)).2
  · exact C5_iface_type_order.2.2 ("bond0".toList) (by decide) (by decide) (by decide)
      (by decide) (by decide) (by decide) (by decide) (by decide)

/-- C10: the utilization computation is division-guarded — an empty interface
list reports 0, otherwise the report is 100 times connected-ports divided by
total-ports, rounded to one decimal place. -/
theorem C10_util_division_guard (ifaces : List IfaceRec) :
    (ifaces.length = 0 → util ifaces = 0) ∧
    (ifaces.length ≠ 0 →
        util ifaces = pyRound1 (100 * (used_count ifaces : ℚ) / (ifaces.length : ℚ))) := by
  constructor
  · intro h
    simp [util, h]
  · intro h
    simp [util, h]

/-- C10 witness. -/
theorem C10_util_division_guard_witness :
    util [] = 0 ∧
    util [{ cable := Val.int 1 }, { cable := Val.null }] =
      pyRound1 (100 * (used_count [{ cable := Val.int 1 }, { cable := Val.null }] : ℚ) / 2) :=
  ⟨(C10_util_division_guard []).1 rfl,
   (C10_util_division_guard [{ cable := Val.int 1 }, { cable := Val.null }]).2 (by simp)⟩

/-- C1: an existing choice set whose extra partition is `[[a,a],[b,b]]` (and
whose rendered choices reflect it), merged with desired values `[b, c]` for
fresh `c`, is patched to extra partition exactly `[[a,a],[b,b],[c,c]]`:
existing entries kept in order, the missing value appended as `[c,c]`. -/
theorem C1_merge_appends (a b c : String) (hca : c ≠ a) (hcb : c ≠ b) :
    ensure_choice_set_structured
      (some { choices := Val.list [Val.list [Val.str a, Val.str a], Val.list [Val.str b, Val.str b]],
              extra_choices := Val.list [Val.list [Val.str a, Val.str a], Val.list [Val.str b, Val.str b]] })
      [b, c] =
    MergeAction.patch
      [Val.list [Val.str a, Val.str a], Val.list [Val.str b, Val.str b],
       Val.list [Val.str c, Val.str c]] := by
  simp [ensure_choice_set_structured, _vals_from_choices, vals_from_choices_list,
        norm_extra_structured, pyOr, Val.truthy, pairOf, hca, hcb]

/-- C1 witness. -/
theorem C1_merge_appends_witness :
    ensure_choice_set_structured
      (some { choices := Val.list [Val.list [Val.str "cpu", Val.str "cpu"], Val.list [Val.str "gpu", Val.str "gpu"]],
              extra_choices := Val.list [Val.list [Val.str "cpu", Val.str "cpu"], Val.list [Val.str "gpu", Val.str "gpu"]] })
      ["gpu", "storage"] =
    MergeAction.patch
      [Val.list [Val.str "cpu", Val.str "cpu"], Val.list [Val.str "gpu", Val.str "gpu"],
       Val.list [Val.str "storage", Val.str "storage"]] :=
  C1_merge_appends "cpu" "gpu" "storage" (by decide) (by decide)

/-- A key picked by `keyOf` is present in the attributes with that (truthy)
value, so a freshly created resource matches its own lookup key. -/
theorem keyOf_lookup {attrs : List (String × Val)} {k : String} {v : Val}
    (h : keyOf attrs = some (k, v)) :
    List.lookup k attrs = some v ∧ v.truthy = true := by
  unfold keyOf at h
  cases hn : List.lookup "name" attrs with
  | some w =>
      rw [hn] at h
      by_cases hw : w.truthy
      · simp [hw] at h
        obtain ⟨hk, hv⟩ := h
        subst hk; subst hv
        exact ⟨hn, hw⟩
      · simp [hw] at h
        cases hs : List.lookup "slug" attrs with
        | some u =>
            rw [hs] at h
            by_cases hu : u.truthy
            · simp [hu] at h
              obtain ⟨hk, hv⟩ := h
              subst hk; subst hv
              exact ⟨hs, hu⟩
            · simp [hu] at h
        | none => rw [hs] at h; simp at h
  | none =>
      rw [hn] at h
      cases hs : List.lookup "slug" attrs with
      | some u =>
          rw [hs] at h
          by_cases hu : u.truthy
          · simp [hu] at h
            obtain ⟨hk, hv⟩ := h
            subst hk; subst hv
            exact ⟨hs, hu⟩
          · simp [hu] at h
      | none => rw [hs] at h; simp at h

/-- C2: `get_or_create` invoked twice with the same keyed attributes (on a
collection where the key matches at most one resource) succeeds both times,
returns the same resource both times, issues at most one create call in
total, and — when a resource with the key already exists — returns it
unmodified with no create call. -/
theorem C2_get_or_create_idempotent (ep : Endpoint) (attrs : List (String × Val))
    (k : String) (v : Val)
    (hk : keyOf attrs = some (k, v))
    (hu : (ep.objects.filter (matchesKey k v)).length ≤ 1) :
    ∃ r1 ep1 n1 r2 ep2 n2,
      get_or_create ep attrs = Except.ok (r1, ep1, n1) ∧
      get_or_create ep1 attrs = Except.ok (r2, ep2, n2) ∧
      r2 = r1 ∧ n1 + n2 ≤ 1 ∧
      (∀ r, ep.objects.filter (matchesKey k v) = [r] → r1 = r ∧ n1 = 0 ∧ ep1 = ep) := by
  obtain ⟨hlk, htr⟩ := keyOf_lookup hk
  cases hf : ep.objects.filter (matchesKey k v) with
  | nil =>
      -- no existing match: the first call creates, the second finds the creation
      refine ⟨{ rid := ep.next_id, rattrs := attrs },
        { next_id := ep.next_id + 1,
          objects := ep.objects ++ [{ rid := ep.next_id, rattrs := attrs }] }, 1,
        { rid := ep.next_id, rattrs := attrs },
        { next_id := ep.next_id + 1,
          objects := ep.objects ++ [{ rid := ep.next_id, rattrs := attrs }] }, 0,
        ?_, ?_, rfl, by omega, ?_⟩
      · simp [get_or_create, hk, epGet, hf]
      · have hmatch : matchesKey k v { rid := ep.next_id, rattrs := attrs } = true := by
          simp [matchesKey, hlk]
        simp [get_or_create, hk, epGet, List.filter_append, hf, hmatch]
      · intro r hr
        exact absurd hr (by simp)
  | cons r rest =>
      cases rest with
      | nil =>
          refine ⟨r, ep, 0, r, ep, 0, ?_, ?_, rfl, by omega, ?_⟩
          · simp [get_or_create, hk, epGet, hf]
          · simp [get_or_create, hk, epGet, hf]
          · intro r0 hr0
            injection hr0 with h1 h2
            exact ⟨h1, rfl, rfl⟩
      | cons r2 rest2 =>
          rw [hf] at hu
          simp at hu

/-- C2 witness. -/
theorem C2_get_or_create_idempotent_witness :
    ∃ r1 ep1 n1 r2 ep2 n2,
      get_or_create { next_id := 0, objects := [] } [("name", Val.str "x")] =
        Except.ok (r1, ep1, n1) ∧
      get_or_create ep1 [("name", Val.str "x")] = Except.ok (r2, ep2, n2) ∧
      r2 = r1 ∧ n1 + n2 ≤ 1 ∧
      (∀ r, (Endpoint.objects { next_id := 0, objects := [] }).filter
          (matchesKey "name" (Val.str "x")) = [r] →
        r1 = r ∧ n1 = 0 ∧ ep1 = { next_id := 0, objects := [] }) :=
  C2_get_or_create_idempotent { next_id := 0, objects := [] } [("name", Val.str "x")]
    "name" (Val.str "x") rfl (by simp)

/-- C7: the rack-wide power roll-up equals the sum of each device's
estimated-wattage custom-field value over all devices placed in the rack;
on the seven demo devices (wattages 180, 220, 20, 800, 800, 250, 350) it is
exactly 2620. -/
theorem C7_rack_watts_sum :
    (∀ devs : List DeviceRec,
        rack_watts devs = (device_watts_all devs).map List.sum) ∧
    rack_watts demoRackDevices = Except.ok 2620 := by
  constructor
  · intro devs
    rw [rack_watts, rack_watts_loop_eq]
    cases device_watts_all devs with
    | error e => rfl
    | ok ws => simp [Except.map]
  · rfl

/-- C8: on the trace body `[[dict-with-device-GPU-1, null, dict-with-device-TOR-1]]`
the normalizer renders exactly one hop line in the form
`left  --[label]-->  right` whose label is the literal `cable` and whose two
termini are rendered via the device names `GPU-1` and `TOR-1`. -/
theorem C8_trace_triple_hop :
    trace_lines (Val.list [Val.list
      [Val.dict [("device", Val.dict [("name", Val.str "GPU-1")])],
       Val.null,
       Val.dict [("device", Val.dict [("name", Val.str "TOR-1")])]]]) =
    Except.ok ["   term:@GPU-1  --[cable]-->  term:@TOR-1"] := rfl

/-- C4: the structured-client path and the raw-HTTP fallback path of
`ensure_choice_set` implement the identical merge: for every existing-set
state and desired value list they issue the same write (same create payload,
same no-op decision, same patched extra partition). -/
theorem C4_transport_paths_agree (cs : Option CSState) (values : List String) :
    ensure_choice_set_structured cs values = ensure_choice_set_raw cs values := by
  cases cs <;> rfl
